import Mathlib

/-!
Verification of the reminder scheduler in `neo` (`neo/ext/customisation.py`).

The embedding models the scheduler state as the pair of
  * the durable `reminders` table (list of `ReminderRecord`), and
  * the set of live asyncio tasks created for reminders (list of `TimerEntry`,
    one per `Reminder` object; the task is named `REMINDER-{rm_id}` at
    `Reminder.__init__`, customisation.py line 48).
External effects (the store insert, the Notifier `send`, arming failures
during recovery) are modelled by explicit Boolean outcome parameters, since
they are decided by collaborators outside this repository.
-/

/-- Model of Python `str.endswith`: the second string is a suffix of the
first.  Used by `_remind_remove` (customisation.py line 268) to match task
names against a requested reminder id. -/
def pyEndsWith (a b : String) : Bool := b.data.isSuffixOf a.data

/-- Model of Python `str.startswith`: the second string is a prefix of the
first.  Used by `_remind_remove` (line 265) and `cog_unload` (line 279) to
collect the running reminder tasks. -/
def pyStartsWith (a b : String) : Bool := b.data.isPrefixOf a.data

/-- Id generation of `Customisation._remind` (line 235):
`int(str(int(time()))[4:])`.  `str(t)[4:]` drops the four most significant
decimal digits of the timestamp, i.e. keeps the `len - 4` low-order digits;
`int` of that digit string is the number they denote.  `Nat.digits` is
little-endian, so the kept characters are `(Nat.digits 10 t).take (len - 4)`.
(For `t < 10000` Python would raise on `int("")`; the claims only concern
ten-digit timestamps, where the two readings agree.) -/
def genId (t : Nat) : Nat :=
  Nat.ofDigits 10 ((Nat.digits 10 t).take ((Nat.digits 10 t).length - 4))

/-- One row of the durable `reminders` table: columns
`(user_id, content, deadline, id, origin_jump)` as inserted at line 237. -/
structure ReminderRecord where
  userId : Nat
  content : String
  deadline : Int
  id : Nat
  originJump : String
deriving DecidableEq, Repr

/-- One live reminder task (a `Reminder` object's `self.task`): the asyncio
task name `REMINDER-{rm_id}` together with the data the task closes over. -/
structure TimerEntry where
  taskName : String
  ownerId : Nat
  rmId : Nat
  deadline : Int
deriving DecidableEq, Repr

/-- Scheduler-visible state: durable records plus live reminder tasks. -/
structure SchedState where
  records : List ReminderRecord
  timers : List TimerEntry
deriving DecidableEq, Repr

/-- Task name assigned at `Reminder.__init__` (line 48):
`f"REMINDER-{self.rm_id}"`. -/
def mkTaskName (rmId : Nat) : String := "REMINDER-" ++ toString rmId

/-- The live timer armed by constructing a `Reminder` object. -/
def mkTimer (ownerId rmId : Nat) (deadline : Int) : TimerEntry :=
  { taskName := mkTaskName rmId, ownerId := ownerId, rmId := rmId, deadline := deadline }

/-- The timer armed for a persisted record (as `_create_first_reminders`
does, lines 274-276). -/
def mkTimerOf (r : ReminderRecord) : TimerEntry := mkTimer r.userId r.id r.deadline

/-- The `INSERT INTO reminders ...` call of `_remind` (lines 236-238).
`insertFails` is the store outcome; a failing insert raises, leaving the
table unchanged, and the exception propagates out of the command. -/
def remindInsert (st : SchedState) (rec : ReminderRecord) (insertFails : Bool) :
    Except Unit SchedState :=
  if insertFails then .error ()
  else .ok { st with records := st.records ++ [rec] }

/-- Constructing the `Reminder` object (lines 240-241) arms its task. -/
def armTimer (st : SchedState) (ownerId rmId : Nat) (deadline : Int) : SchedState :=
  { st with timers := st.timers ++ [mkTimer ownerId rmId deadline] }

/-- `Customisation._remind` (lines 231-243): generate the id from the clock,
run the insert, and only if it succeeded construct the `Reminder` (the
insert is awaited first; an exception there skips the rest of the body).
Returns the post-state and the command outcome. -/
def remindCreate (st : SchedState) (owner : Nat) (content : String) (deadline : Int)
    (jump : String) (now : Nat) (insertFails : Bool) : SchedState × Except Unit Nat :=
  let rid := genId now
  match remindInsert st ⟨owner, content, deadline, rid, jump⟩ insertFails with
  | .error e => (st, .error e)
  | .ok st1 => (armTimer st1 owner rid deadline, .ok rid)

/-- The loop body of `_remind_remove` (lines 267-269): for each requested id,
cancel every running task whose name starts with `REMINDER` and ends with
`str(reminder_id)`, then `DELETE FROM reminders WHERE id=$1 and user_id=$2`. -/
def removeLoop (owner : Nat) : List Nat → List ReminderRecord → List TimerEntry →
    List ReminderRecord × List TimerEntry
  | [], recs, timers => (recs, timers)
  | i :: rest, recs, timers =>
    removeLoop owner rest
      (recs.filter fun r => !(r.id == i && r.userId == owner))
      (timers.filter fun tm =>
        !(pyStartsWith tm.taskName "REMINDER" && pyEndsWith tm.taskName (toString i)))

/-- `Customisation._remind_remove` (lines 262-269), invoked by owner
`owner` with the list `items` of requested ids. -/
def remindRemove (st : SchedState) (owner : Nat) (items : List Nat) : SchedState :=
  let p := removeLoop owner items st.records st.timers
  { records := p.1, timers := p.2 }

/-- Number of distinct running reminder tasks that receive at least one
`task.cancel()` call during `_remind_remove` (the source evaluates the
cancelling list comprehension at line 268 and discards it). -/
def cancelledCount (st : SchedState) (items : List Nat) : Nat :=
  ((st.timers.filter fun tm => pyStartsWith tm.taskName "REMINDER").filter
    fun tm => items.any fun i => pyEndsWith tm.taskName (toString i)).length

/-- `Reminder._do_remind` (lines 58-64): the Notifier call
`await target.send(...)` (line 63) runs BEFORE the
`DELETE FROM reminders WHERE id=$1 and user_id=$2` (line 64).  `sendOk`
is the Notifier outcome; when the send raises, the coroutine aborts and
the delete statement is never executed.  Returns the post-state and
whether delivery happened. -/
def doRemind (st : SchedState) (rmId userId : Nat) (sendOk : Bool) : SchedState × Bool :=
  if sendOk then
    ({ st with records := st.records.filter fun r => !(r.id == rmId && r.userId == userId) },
     true)
  else (st, false)

/-- A live timer completing naturally (`_do_wait`, lines 54-56): the body
runs `_do_remind`; whether that returns or raises, the task finishes and
leaves the set of running tasks. -/
def fireReminder (st : SchedState) (tm : TimerEntry) (sendOk : Bool) : SchedState × Bool :=
  let p := doRemind st tm.rmId tm.ownerId sendOk
  ({ p.1 with timers := p.1.timers.erase tm }, p.2)

/-- `discord.utils.sleep_until(deadline)` resumes at the deadline, or
immediately when the deadline is already past (`_do_wait`, line 55). -/
def sleepUntilResume (now deadline : Int) : Int := max now deadline

/-- The `for` loop of `_create_first_reminders` (lines 273-276): arm one
timer per fetched record, in order.  `armFails` marks records whose
`Reminder(...)` construction raises; the loop has no exception handler, so
a raise aborts the remaining iterations (the coroutine runs as a task, so
the exception is not re-raised anywhere else). -/
def recoverLoop (armFails : ReminderRecord → Bool) : List ReminderRecord → List TimerEntry
  | [] => []
  | r :: rs => if armFails r then [] else mkTimerOf r :: recoverLoop armFails rs

/-- `Customisation._create_first_reminders` (lines 271-276): arm a timer
for every record of `SELECT * FROM reminders`; no record is deleted. -/
def createFirstReminders (st : SchedState) (armFails : ReminderRecord → Bool) : SchedState :=
  { st with timers := st.timers ++ recoverLoop armFails st.records }

/-- `Customisation.cog_unload` (lines 278-280): cancel every running task
whose name starts with `REMINDER`; no database statement is issued. -/
def cogUnload (st : SchedState) : SchedState :=
  { st with timers := st.timers.filter fun tm => !(pyStartsWith tm.taskName "REMINDER") }

/-- The no-double-arming invariant of the spec: at most one live timer per
reminder id. -/
def noDoubleArm (st : SchedState) : Prop := (st.timers.map fun tm => tm.rmId).Nodup

/-! Shared helper lemmas. -/

theorem ofDigits_take_eq_mod (t k : Nat) (hk : k ≤ (Nat.digits 10 t).length) :
    Nat.ofDigits 10 ((Nat.digits 10 t).take k) = t % 10 ^ k := by
  have hlen : ((Nat.digits 10 t).take k).length = k := by
    simp [List.length_take, hk]
  have hlt : Nat.ofDigits 10 ((Nat.digits 10 t).take k) < 10 ^ k := by
    have := Nat.ofDigits_lt_base_pow_length (b := 10) (l := (Nat.digits 10 t).take k)
      (by norm_num) (fun x hx => Nat.digits_lt_base (by norm_num) (List.mem_of_mem_take hx))
    rwa [hlen] at this
  have h1 : Nat.ofDigits 10 ((Nat.digits 10 t).take k) +
      10 ^ k * Nat.ofDigits 10 ((Nat.digits 10 t).drop k) = t := by
    have h2 : Nat.ofDigits 10 ((Nat.digits 10 t).take k ++ (Nat.digits 10 t).drop k) = t := by
      rw [List.take_append_drop, Nat.ofDigits_digits]
    rwa [Nat.ofDigits_append, hlen] at h2
  conv_rhs => rw [← h1]
  rw [Nat.add_mul_mod_self_left, Nat.mod_eq_of_lt hlt]

theorem digits_len_ten (t : Nat) (h1 : 10 ^ 9 ≤ t) (h2 : t < 10 ^ 10) :
    (Nat.digits 10 t).length = 10 := by
  have hne : t ≠ 0 := by omega
  rw [Nat.digits_len 10 t (by norm_num) hne]
  have : Nat.log 10 t = 9 := Nat.log_eq_of_pow_le_of_lt_pow h1 h2
  omega

theorem genId_ten_digits (t : Nat) (h1 : 10 ^ 9 ≤ t) (h2 : t < 10 ^ 10) :
    genId t = t % 1000000 := by
  rw [genId, digits_len_ten t h1 h2]
  have := ofDigits_take_eq_mod t 6 (by rw [digits_len_ten t h1 h2]; omega)
  norm_num at this ⊢
  exact this

theorem mkTaskName_endsWith (n : Nat) : pyEndsWith (mkTaskName n) (toString n) = true := by
  rw [mkTaskName, pyEndsWith, List.isSuffixOf_iff_suffix, String.data_append]
  exact List.suffix_append _ _

theorem mkTaskName_startsWith (n : Nat) : pyStartsWith (mkTaskName n) "REMINDER" = true := by
  rw [mkTaskName, pyStartsWith, List.isPrefixOf_iff_prefix, String.data_append]
  have h : ("REMINDER-" : String).data = ("REMINDER" : String).data ++ ['-'] := by decide
  rw [h, List.append_assoc]
  exact List.prefix_append _ _

theorem removeLoop_spec (owner : Nat) (items : List Nat) (recs : List ReminderRecord)
    (timers : List TimerEntry) :
    removeLoop owner items recs timers =
      (recs.filter fun r => !(items.contains r.id && r.userId == owner),
       timers.filter fun tm =>
         !(pyStartsWith tm.taskName "REMINDER" &&
           items.any fun i => pyEndsWith tm.taskName (toString i))) := by
  induction items generalizing recs timers with
  | nil => simp [removeLoop]
  | cons i rest ih =>
    rw [removeLoop, ih]
    simp only [Prod.mk.injEq]
    refine ⟨?_, ?_⟩
    · rw [List.filter_filter]
      apply List.filter_congr
      intro r _
      simp only [List.contains_cons]
      cases h1 : (r.id == i) <;> cases h2 : rest.contains r.id <;>
        cases h3 : (r.userId == owner) <;> simp [h1, h2, h3]
    · rw [List.filter_filter]
      apply List.filter_congr
      intro tm _
      simp only [List.any_cons]
      cases h1 : pyStartsWith tm.taskName "REMINDER" <;>
        cases h2 : pyEndsWith tm.taskName (toString i) <;>
        cases h3 : (rest.any fun j => pyEndsWith tm.taskName (toString j)) <;>
          simp [h1, h2, h3]

theorem remindRemove_records (st : SchedState) (owner : Nat) (items : List Nat) :
    (remindRemove st owner items).records =
      st.records.filter fun r => !(items.contains r.id && r.userId == owner) := by
  rw [remindRemove, removeLoop_spec]

theorem remindRemove_timers (st : SchedState) (owner : Nat) (items : List Nat) :
    (remindRemove st owner items).timers =
      st.timers.filter fun tm =>
        !(pyStartsWith tm.taskName "REMINDER" &&
          items.any fun i => pyEndsWith tm.taskName (toString i)) := by
  rw [remindRemove, removeLoop_spec]

theorem recoverLoop_all_ok (armFails : ReminderRecord → Bool) :
    ∀ rs : List ReminderRecord, (∀ r ∈ rs, armFails r = false) →
      recoverLoop armFails rs = rs.map mkTimerOf := by
  intro rs
  induction rs with
  | nil => intro _; rfl
  | cons r rest ih =>
    intro h
    rw [recoverLoop, h r (by simp), ih fun x hx => h x (by simp [hx])]
    simp

theorem recoverLoop_abort (armFails : ReminderRecord → Bool) (r : ReminderRecord)
    (post : List ReminderRecord) (hr : armFails r = true) :
    ∀ pre : List ReminderRecord, (∀ x ∈ pre, armFails x = false) →
      recoverLoop armFails (pre ++ r :: post) = pre.map mkTimerOf := by
  intro pre
  induction pre with
  | nil => intro _; simp [recoverLoop, hr]
  | cons p rest ih =>
    intro h
    rw [List.cons_append, recoverLoop, h p (by simp),
      ih fun x hx => h x (by simp [hx])]
    simp

/-! Claim theorems. -/

/-- C1 counterexample: in `_do_remind` the `DELETE` (line 64) runs after
`target.send` (line 63), so when the Notifier raises, the matching record is
still in the store after the fire attempt — the claim that it is deleted
even on failed delivery is false at this concrete input. -/
theorem fire_failure_keeps_record :
    (⟨42, "buy milk", 100, 12345, "o"⟩ : ReminderRecord) ∈
      (fireReminder
        { records := [⟨42, "buy milk", 100, 12345, "o"⟩], timers := [mkTimer 42 12345 100] }
        (mkTimer 42 12345 100) false).1.records := by
  simp [fireReminder, doRemind]

/-- C1 amended: after a natural fire attempt, the matching record is absent
iff delivery succeeded (records of other reminders are untouched); when the
Notifier raises, the delete statement is never reached and the record
survives in the store. -/
theorem fire_deletes_record_iff_delivered (st : SchedState) (tm : TimerEntry)
    (sendOk : Bool) (r : ReminderRecord) :
    r ∈ (fireReminder st tm sendOk).1.records ↔
      r ∈ st.records ∧ (sendOk = true → ¬(r.id = tm.rmId ∧ r.userId = tm.ownerId)) := by
  cases sendOk with
  | false => simp [fireReminder, doRemind]
  | true =>
    simp [fireReminder, doRemind, List.mem_filter]
    tauto

/-- C1 amended, witness at a concrete input. -/
theorem fire_deletes_record_iff_delivered_witness :
    (⟨42, "buy milk", 100, 12345, "o"⟩ : ReminderRecord) ∈
      (fireReminder
        { records := [⟨42, "buy milk", 100, 12345, "o"⟩], timers := [mkTimer 42 12345 100] }
        (mkTimer 42 12345 100) false).1.records := by
  apply (fire_deletes_record_iff_delivered
    { records := [⟨42, "buy milk", 100, 12345, "o"⟩], timers := [mkTimer 42 12345 100] }
    (mkTimer 42 12345 100) false ⟨42, "buy milk", 100, 12345, "o"⟩).mpr
  refine ⟨by simp, by simp⟩

/-- C2 counterexample: cancelling id 12 also cancels the live timer of id
112, because `_remind_remove` matches tasks with
`task.get_name().endswith(str(reminder_id))` and `"REMINDER-112"` ends with
`"12"`; a timer whose id is not in the requested set is cancelled. -/
theorem cancel_cancels_unrequested_timer :
    (112 : Nat) ∉ [12] ∧
    mkTimer 7 112 5 ∉
      (remindRemove { records := [], timers := [mkTimer 7 12 5, mkTimer 7 112 5] }
        7 [12]).timers := by
  decide

/-- C2 amended: `_remind_remove` cancels exactly the running tasks whose
name starts with `REMINDER` and ends with the decimal string of some
requested id (which can include timers whose id is not in the set, when one
id's decimal string is a suffix of another's), and deletes exactly the
records whose id is in the set and whose owner is the requester. -/
theorem remindRemove_closed_form (st : SchedState) (owner : Nat) (items : List Nat) :
    (remindRemove st owner items).records =
      st.records.filter (fun r => !(items.contains r.id && r.userId == owner)) ∧
    (remindRemove st owner items).timers =
      st.timers.filter (fun tm =>
        !(pyStartsWith tm.taskName "REMINDER" &&
          items.any fun i => pyEndsWith tm.taskName (toString i))) :=
  ⟨remindRemove_records st owner items, remindRemove_timers st owner items⟩

/-- C2 amended, witness at a concrete input. -/
theorem remindRemove_closed_form_witness :
    (remindRemove { records := [], timers := [mkTimer 7 12 5, mkTimer 7 112 5] }
        7 [12]).timers =
      [mkTimer 7 12 5, mkTimer 7 112 5].filter (fun tm =>
        !(pyStartsWith tm.taskName "REMINDER" &&
          [12].any fun i => pyEndsWith tm.taskName (toString i))) :=
  (remindRemove_closed_form
    { records := [], timers := [mkTimer 7 12 5, mkTimer 7 112 5] } 7 [12]).2

/-- C3: `_remind` awaits the `INSERT` before constructing the `Reminder`:
when the store write fails the command raises with the state unchanged (no
timer armed, no record written), and on success the timer is armed on the
state that already contains the new record, and the generated id is
reported. -/
theorem create_persist_then_arm (st : SchedState) (owner : Nat) (content : String)
    (dl : Int) (jump : String) (now : Nat) :
    remindCreate st owner content dl jump now true = (st, .error ()) ∧
    (remindCreate st owner content dl jump now false).1 =
      armTimer { st with records := st.records ++ [⟨owner, content, dl, genId now, jump⟩] }
        owner (genId now) dl ∧
    (remindCreate st owner content dl jump now false).2 = .ok (genId now) :=
  ⟨rfl, rfl, rfl⟩

/-- C3, witness at a concrete input. -/
theorem create_persist_then_arm_witness :
    remindCreate { records := [], timers := [] } 42 "buy milk" 100 "o" 1000012345 true =
      ({ records := [], timers := [] }, .error ()) :=
  (create_persist_then_arm { records := [], timers := [] } 42 "buy milk" 100 "o"
    1000012345).1

/-- C4: with a fresh in-memory state and no arming failure,
`_create_first_reminders` arms exactly one timer per surviving record —
past-deadline records included — and `sleep_until` resumes immediately
(at `now`) for every record whose deadline has already passed. -/
theorem recover_arms_every_record (st : SchedState) (armFails : ReminderRecord → Bool)
    (now : Int) (hfail : ∀ r ∈ st.records, armFails r = false) (h0 : st.timers = []) :
    (createFirstReminders st armFails).timers.length = st.records.length ∧
    (∀ r ∈ st.records, mkTimerOf r ∈ (createFirstReminders st armFails).timers) ∧
    (∀ r ∈ st.records, r.deadline ≤ now → sleepUntilResume now r.deadline = now) := by
  have hl := recoverLoop_all_ok armFails st.records hfail
  refine ⟨?_, ?_, ?_⟩
  · simp [createFirstReminders, h0, hl]
  · intro r hr
    simp only [createFirstReminders, h0, hl, List.nil_append]
    exact List.mem_map_of_mem mkTimerOf hr
  · intro r _ hd
    simp [sleepUntilResume, max_eq_left hd]

/-- C4, witness at a concrete input (one past-deadline record). -/
theorem recover_arms_every_record_witness :
    (createFirstReminders { records := [⟨1, "a", 3, 100, "o"⟩], timers := [] }
      (fun _ => false)).timers.length = 1 := by
  have h := recover_arms_every_record { records := [⟨1, "a", 3, 100, "o"⟩], timers := [] }
    (fun _ => false) 5 (by intro r _; rfl) rfl
  simpa using h.1

/-- C5 counterexample: the recovery loop has no per-record exception
handling, so when arming the first record raises, the second record — whose
arming would succeed — gets no live timer, contradicting per-record
isolation. -/
theorem recover_abort_counterexample :
    (fun r : ReminderRecord => r.id == 1) ⟨1, "a", 3, 1, "o"⟩ = true ∧
    (fun r : ReminderRecord => r.id == 1) ⟨2, "b", 4, 2, "p"⟩ = false ∧
    mkTimerOf ⟨2, "b", 4, 2, "p"⟩ ∉
      (createFirstReminders
        { records := [⟨1, "a", 3, 1, "o"⟩, ⟨2, "b", 4, 2, "p"⟩], timers := [] }
        (fun r => r.id == 1)).timers := by
  decide

/-- C5 amended: an arming failure during `_create_first_reminders` aborts
the rest of the loop: exactly the records listed before the failing one
get a live timer; every record after it gets none. -/
theorem recover_aborts_after_failure (pre post : List ReminderRecord)
    (r : ReminderRecord) (armFails : ReminderRecord → Bool)
    (hpre : ∀ x ∈ pre, armFails x = false) (hr : armFails r = true) :
    (createFirstReminders { records := pre ++ r :: post, timers := [] } armFails).timers =
      pre.map mkTimerOf := by
  simp [createFirstReminders, recoverLoop_abort armFails r post hr pre hpre]

/-- C5 amended, witness at a concrete three-record input. -/
theorem recover_aborts_after_failure_witness :
    (createFirstReminders
      { records := [⟨1, "a", 3, 1, "o"⟩, ⟨2, "b", 4, 2, "p"⟩, ⟨3, "c", 5, 3, "q"⟩],
        timers := [] } (fun r => r.id == 2)).timers = [mkTimerOf ⟨1, "a", 3, 1, "o"⟩] := by
  have h := recover_aborts_after_failure [⟨1, "a", 3, 1, "o"⟩] [⟨3, "c", 5, 3, "q"⟩]
    ⟨2, "b", 4, 2, "p"⟩ (fun r => r.id == 2) (by decide) (by decide)
  simpa using h

/-- C6 counterexample: two successful creations within the same clock
second generate the same truncated-clock id and `_remind` never checks for
an existing timer, so two live timers with the same reminder id coexist —
the at-most-one-timer-per-id invariant fails under this operation
sequence. -/
theorem double_arm_same_second :
    ¬ noDoubleArm
      (remindCreate
        (remindCreate { records := [], timers := [] } 1 "a" 10 "u" 1000012345 false).1
        2 "b" 20 "v" 1000012345 false).1 := by
  simp [noDoubleArm, remindCreate, remindInsert, armTimer, mkTimer]

/-- C6 amended: the invariant is preserved by every operation except a
creation whose generated id collides with a live timer: a create whose id
is fresh among the live timers preserves it, and cancellation and unload
only remove timers, so they preserve it unconditionally. -/
theorem noDoubleArm_preserved (st : SchedState) (owner cowner : Nat) (content : String)
    (dl : Int) (jump : String) (now : Nat) (insertFails : Bool) (items : List Nat)
    (hnd : noDoubleArm st) (hfresh : ∀ tm ∈ st.timers, tm.rmId ≠ genId now) :
    noDoubleArm (remindCreate st owner content dl jump now insertFails).1 ∧
    noDoubleArm (remindRemove st cowner items) ∧
    noDoubleArm (cogUnload st) := by
  refine ⟨?_, ?_, ?_⟩
  · cases insertFails with
    | true => simpa [remindCreate, remindInsert] using hnd
    | false =>
      rw [noDoubleArm] at hnd ⊢
      show (List.map (fun tm => tm.rmId) (st.timers ++ [mkTimer owner (genId now) dl])).Nodup
      rw [List.map_append, List.nodup_append]
      refine ⟨hnd, by simp, ?_⟩
      intro x hx
      simp only [List.mem_map] at hx
      obtain ⟨tm, htm, rfl⟩ := hx
      simp [mkTimer, hfresh tm htm]
  · rw [noDoubleArm, remindRemove_timers]
    exact ((List.filter_sublist _).map _).nodup hnd
  · rw [noDoubleArm, cogUnload]
    exact ((List.filter_sublist _).map _).nodup hnd

/-- C6 amended, witness at a concrete input. -/
theorem noDoubleArm_preserved_witness :
    noDoubleArm (remindCreate { records := [], timers := [] } 1 "a" 10 "u"
      1000012345 false).1 := by
  have h := noDoubleArm_preserved { records := [], timers := [] } 1 9 "a" 10 "u"
    1000012345 false [3] (by simp [noDoubleArm]) (by simp)
  exact h.1

/-- C7 counterexample: id 999 was never created (the store is empty and no
live timer has reminder id 999), yet cancelling it is not a no-op: the
suffix match cancels the unrelated live timer of id 11999, and one task
receives a cancel call. -/
theorem cancel_unknown_id_not_noop :
    (∀ tm ∈ ({ records := [], timers := [mkTimer 7 11999 50] } : SchedState).timers,
      tm.rmId ≠ 999) ∧
    (remindRemove { records := [], timers := [mkTimer 7 11999 50] } 42 [999]).timers = [] ∧
    cancelledCount { records := [], timers := [mkTimer 7 11999 50] } [999] = 1 := by
  decide

/-- C7 amended: cancelling ids is an error-free no-op — state unchanged and
zero cancel calls issued — provided no stored record matches a requested id
for the requesting owner and no live task name ends with the decimal string
of a requested id (the plain id of a never-created reminder only
guarantees this when no live id has it as a decimal suffix). -/
theorem cancel_unmatched_is_noop (st : SchedState) (owner : Nat) (items : List Nat)
    (hrec : ∀ r ∈ st.records, ¬(r.id ∈ items ∧ r.userId = owner))
    (htm : ∀ tm ∈ st.timers, ∀ i ∈ items, pyEndsWith tm.taskName (toString i) = false) :
    remindRemove st owner items = st ∧ cancelledCount st items = 0 := by
  constructor
  · cases st with
    | mk recs timers =>
      have h1 := remindRemove_records ⟨recs, timers⟩ owner items
      have h2 := remindRemove_timers ⟨recs, timers⟩ owner items
      have e1 : recs.filter (fun r => !(items.contains r.id && r.userId == owner)) = recs := by
        apply List.filter_eq_self.mpr
        intro r hr
        have := hrec r hr
        simp only [Bool.not_eq_true', Bool.and_eq_false_iff]
        by_cases hm : r.id ∈ items
        · right
          simp only [beq_eq_false_iff_ne, ne_eq]
          intro hu
          exact this ⟨hm, hu⟩
        · left
          simpa using hm
      have e2 : timers.filter (fun tm =>
          !(pyStartsWith tm.taskName "REMINDER" &&
            items.any fun i => pyEndsWith tm.taskName (toString i))) = timers := by
        apply List.filter_eq_self.mpr
        intro tm htmm
        have hany : (items.any fun i => pyEndsWith tm.taskName (toString i)) = false := by
          apply List.any_eq_false.mpr
          intro i hi
          simp [htm tm htmm i hi]
        simp [hany]
      have : remindRemove ⟨recs, timers⟩ owner items =
          ⟨(remindRemove ⟨recs, timers⟩ owner items).records,
           (remindRemove ⟨recs, timers⟩ owner items).timers⟩ := rfl
      rw [this, h1, h2, e1, e2]
  · rw [cancelledCount]
    have : (st.timers.filter fun tm => pyStartsWith tm.taskName "REMINDER").filter
        (fun tm => items.any fun i => pyEndsWith tm.taskName (toString i)) = [] := by
      apply List.filter_eq_nil_iff.mpr
      intro tm htmm
      have htm' : tm ∈ st.timers := List.mem_of_mem_filter htmm
      have hany : (items.any fun i => pyEndsWith tm.taskName (toString i)) = false := by
        apply List.any_eq_false.mpr
        intro i hi
        simp [htm tm htm' i hi]
      simp [hany]
    rw [this]
    rfl

/-- C7 amended, witness at a concrete input: cancelling the never-created
id 999 against an unrelated reminder 555 changes nothing. -/
theorem cancel_unmatched_is_noop_witness :
    remindRemove { records := [⟨7, "x", 9, 555, "o"⟩], timers := [mkTimer 7 555 9] }
        42 [999] =
      { records := [⟨7, "x", 9, 555, "o"⟩], timers := [mkTimer 7 555 9] } ∧
    cancelledCount { records := [⟨7, "x", 9, 555, "o"⟩], timers := [mkTimer 7 555 9] }
      [999] = 0 :=
  cancel_unmatched_is_noop _ 42 [999] (by decide) (by decide)

/-- C8: `cog_unload` issues no database statement, so the durable records
are exactly those before it, and it cancels every running task whose name
starts with `REMINDER` — for a state whose live timers all carry the
`REMINDER-` task-name convention, no live timer remains. -/
theorem cogUnload_cancels_all_preserves_records (st : SchedState)
    (h : ∀ tm ∈ st.timers, pyStartsWith tm.taskName "REMINDER" = true) :
    (cogUnload st).records = st.records ∧ (cogUnload st).timers = [] := by
  refine ⟨rfl, ?_⟩
  rw [cogUnload]
  apply List.filter_eq_nil_iff.mpr
  intro tm htm
  simp [h tm htm]

/-- C8, witness at a concrete input. -/
theorem cogUnload_cancels_all_preserves_records_witness :
    (cogUnload { records := [⟨3, "x", 9, 4, "o"⟩], timers := [mkTimer 3 4 9] }).records =
      [⟨3, "x", 9, 4, "o"⟩] ∧
    (cogUnload { records := [⟨3, "x", 9, 4, "o"⟩], timers := [mkTimer 3 4 9] }).timers =
      [] :=
  cogUnload_cancels_all_preserves_records
    { records := [⟨3, "x", 9, 4, "o"⟩], timers := [mkTimer 3 4 9] } (by decide)

/-- C9: timer cancellation in `_remind_remove` is not owner-scoped while
record deletion is: when user `a` cancels id `n`, a live timer named
`REMINDER-{n}` is cancelled whatever its owner, a record with id `n` owned
by a different user `b` survives in the store, and exactly the records with
id `n` and owner `a` are deleted — so the other user's reminder becomes a
durable record with no live timer. -/
theorem cancel_timers_not_owner_scoped (st : SchedState) (a b n : Nat)
    (rec : ReminderRecord) (tm : TimerEntry) (hba : b ≠ a) (hrec : rec ∈ st.records)
    (hid : rec.id = n) (howner : rec.userId = b) (htm : tm ∈ st.timers)
    (hname : tm.taskName = mkTaskName n) :
    tm ∉ (remindRemove st a [n]).timers ∧
    rec ∈ (remindRemove st a [n]).records ∧
    (∀ r ∈ st.records, r.id = n → r.userId = a → r ∉ (remindRemove st a [n]).records) := by
  refine ⟨?_, ?_, ?_⟩
  · rw [remindRemove_timers]
    intro hmem
    have hp := (List.mem_filter.mp hmem).2
    rw [hname] at hp
    simp [mkTaskName_startsWith n, mkTaskName_endsWith n] at hp
  · rw [remindRemove_records]
    apply List.mem_filter.mpr
    refine ⟨hrec, ?_⟩
    have : (rec.userId == a) = false := by
      simp only [beq_eq_false_iff_ne, ne_eq, howner]
      exact hba
    simp [this]
  · intro r hr hrid hrowner
    rw [remindRemove_records]
    intro hmem
    have hp := (List.mem_filter.mp hmem).2
    simp [hrid, hrowner] at hp

/-- C9, witness at a concrete input: user 3 cancels id 77; user 5's timer
for id 77 is cancelled but user 5's record survives. -/
theorem cancel_timers_not_owner_scoped_witness :
    mkTimer 5 77 9 ∉
      (remindRemove { records := [⟨5, "c", 9, 77, "o"⟩], timers := [mkTimer 5 77 9] }
        3 [77]).timers ∧
    (⟨5, "c", 9, 77, "o"⟩ : ReminderRecord) ∈
      (remindRemove { records := [⟨5, "c", 9, 77, "o"⟩], timers := [mkTimer 5 77 9] }
        3 [77]).records := by
  have h := cancel_timers_not_owner_scoped
    { records := [⟨5, "c", 9, 77, "o"⟩], timers := [mkTimer 5 77 9] } 3 5 77
    ⟨5, "c", 9, 77, "o"⟩ (mkTimer 5 77 9) (by decide) (by simp) rfl rfl (by simp) rfl
  exact ⟨h.1, h.2.1⟩

/-- C10: the id generated at a ten-digit integer timestamp `t` (any wall
clock between 2001 and 2286) equals the six low-order decimal digits
`t % 1000000` — hence it is below 1,000,000 — and the generator is neither
injective (timestamps 1000000000 and 2000000000 share id 0) nor monotone
(the id at 1001000000 is below the id at the earlier 1000999999). -/
theorem genId_truncated_clock :
    (∀ t : Nat, 10 ^ 9 ≤ t → t < 10 ^ 10 → genId t = t % 1000000 ∧ genId t < 1000000) ∧
    ((1000000000 : Nat) ≠ 2000000000 ∧ genId 1000000000 = genId 2000000000) ∧
    ((1000999999 : Nat) < 1001000000 ∧ genId 1001000000 < genId 1000999999) := by
  refine ⟨?_, ⟨by norm_num, ?_⟩, ⟨by norm_num, ?_⟩⟩
  · intro t h1 h2
    have h := genId_ten_digits t h1 h2
    exact ⟨h, by rw [h]; exact Nat.mod_lt _ (by norm_num)⟩
  · rw [genId_ten_digits 1000000000 (by norm_num) (by norm_num),
      genId_ten_digits 2000000000 (by norm_num) (by norm_num)]
  · rw [genId_ten_digits 1001000000 (by norm_num) (by norm_num),
      genId_ten_digits 1000999999 (by norm_num) (by norm_num)]
    norm_num

/-- C10, witness at a concrete input. -/
theorem genId_truncated_clock_witness : genId 1234567890 = 567890 := by
  have h := genId_truncated_clock.1 1234567890 (by norm_num) (by norm_num)
  rw [h.1]
